import Mathlib

/-!
Shallow embedding of the NeuraCare vital evaluator: the per-screen
`calculateVitalStatus` / `calculateHealthProgress` functions of the home and
track screens (src/unnamed/part_003) and the simplified home variant.

Modelling conventions:
* JavaScript numbers are modelled by `JsNum`: NaN, +Infinity, -Infinity, or a
  finite value.  Finite values are exact rationals (`JsQ`, an integer pair
  with positive denominator, kernel-computable; `JsQ.toRat` maps it to `ℚ`).
  Binary64 rounding is idealised away: every comparison and arithmetic
  operation is exact.  All thresholds in the source are short decimal
  literals and no claim depends on a sub-ulp distinction.  There is no -0.
* The character-level string operations of the source (`split`, `includes`,
  `trim`, `parseFloat`, `parseInt`) are modelled on `List Char` via
  `String.data`; `value.split(sep)[0]` is the prefix before the first `sep`
  (`beforeFirst`), `value.split(sep)` is `splitChars`.
* `null` and `undefined` are merged into `VitalValue.vNull`; a missing
  reading is `Option.none`.  Both behave identically in every guard of the
  source.
-/

/-- An exact rational with positive denominator: the value carrier for finite
JavaScript numbers.  Not normalised; semantic value is `toRat`. -/
structure JsQ where
  num : ℤ
  den : ℤ
  dpos : 0 < den

instance : DecidableEq JsQ := fun a b =>
  decidable_of_iff (a.num = b.num ∧ a.den = b.den) (by cases a; cases b; simp)

/-- Embed an integer. -/
def JsQ.ofInt (n : ℤ) : JsQ := ⟨n, 1, one_pos⟩

instance instOfNatJsQ (n : ℕ) : OfNat JsQ n := ⟨JsQ.ofInt n⟩

instance : OfScientific JsQ :=
  ⟨fun m b e =>
    if b then ⟨(m : ℤ), (10 : ℤ) ^ e, by positivity⟩
    else ⟨(m : ℤ) * (10 : ℤ) ^ e, 1, one_pos⟩⟩

/-- The rational value of a `JsQ`. -/
def JsQ.toRat (a : JsQ) : ℚ := (a.num : ℚ) / (a.den : ℚ)

/-- Exact addition. -/
def JsQ.add (a b : JsQ) : JsQ :=
  ⟨a.num * b.den + b.num * a.den, a.den * b.den, mul_pos a.dpos b.dpos⟩

/-- Exact multiplication. -/
def JsQ.mul (a b : JsQ) : JsQ :=
  ⟨a.num * b.num, a.den * b.den, mul_pos a.dpos b.dpos⟩

/-- Negation. -/
def JsQ.neg (a : JsQ) : JsQ := ⟨-a.num, a.den, a.dpos⟩

/-- Exact division; only ever applied to a nonzero divisor (the JavaScript
division-by-zero cases are handled at the `JsNum` level). -/
def JsQ.div (a b : JsQ) : JsQ :=
  if h : 0 < b.num then ⟨a.num * b.den, a.den * b.num, mul_pos a.dpos h⟩
  else if h2 : b.num < 0 then
    ⟨-(a.num * b.den), a.den * (-b.num), mul_pos a.dpos (neg_pos.mpr h2)⟩
  else ⟨0, 1, one_pos⟩

/-- Boolean `≤` on values. -/
def JsQ.ble (a b : JsQ) : Bool := decide (a.num * b.den ≤ b.num * a.den)

/-- Boolean `<` on values. -/
def JsQ.blt (a b : JsQ) : Bool := decide (a.num * b.den < b.num * a.den)

/-- Is the value zero? -/
def JsQ.isZero (a : JsQ) : Bool := decide (a.num = 0)

/-- `Math.round` on a finite value: floor of the value plus one half
(integer division by the positive `2 * den` floors). -/
def JsQ.round (a : JsQ) : ℤ := (2 * a.num + a.den) / (2 * a.den)

/-- A JavaScript number: NaN, an infinity, or a finite exact value. -/
inductive JsNum where
  | nan
  | posInf
  | negInf
  | fin (q : JsQ)
deriving DecidableEq

instance instOfNatJsNum (n : ℕ) : OfNat JsNum n := ⟨.fin (JsQ.ofInt n)⟩

instance : OfScientific JsNum := ⟨fun m e b => .fin (OfScientific.ofScientific m e b)⟩

/-- JavaScript `isNaN` on a number. -/
def JsNum.isNaN : JsNum → Bool
  | .nan => true
  | _ => false

/-- JavaScript `<`: false whenever either side is NaN. -/
def jsLt : JsNum → JsNum → Bool
  | .nan, _ => false
  | _, .nan => false
  | .negInf, .negInf => false
  | .negInf, _ => true
  | _, .negInf => false
  | .posInf, _ => false
  | .fin _, .posInf => true
  | .fin a, .fin b => a.blt b

/-- JavaScript `<=`: false whenever either side is NaN. -/
def jsLe : JsNum → JsNum → Bool
  | .nan, _ => false
  | _, .nan => false
  | .negInf, _ => true
  | _, .negInf => false
  | _, .posInf => true
  | .posInf, .fin _ => false
  | .fin a, .fin b => a.ble b

/-- JavaScript `>`. -/
def jsGt (a b : JsNum) : Bool := jsLt b a

/-- JavaScript `>=`. -/
def jsGe (a b : JsNum) : Bool := jsLe b a

/-- JavaScript addition. -/
def jsAdd : JsNum → JsNum → JsNum
  | .nan, _ => .nan
  | _, .nan => .nan
  | .posInf, .negInf => .nan
  | .negInf, .posInf => .nan
  | .posInf, _ => .posInf
  | _, .posInf => .posInf
  | .negInf, _ => .negInf
  | _, .negInf => .negInf
  | .fin a, .fin b => .fin (a.add b)

/-- JavaScript multiplication. -/
def jsMul : JsNum → JsNum → JsNum
  | .nan, _ => .nan
  | _, .nan => .nan
  | .posInf, .posInf => .posInf
  | .posInf, .negInf => .negInf
  | .negInf, .posInf => .negInf
  | .negInf, .negInf => .posInf
  | .posInf, .fin b => if b.isZero then .nan else if (0 : ℤ) < b.num then .posInf else .negInf
  | .fin a, .posInf => if a.isZero then .nan else if (0 : ℤ) < a.num then .posInf else .negInf
  | .negInf, .fin b => if b.isZero then .nan else if (0 : ℤ) < b.num then .negInf else .posInf
  | .fin a, .negInf => if a.isZero then .nan else if (0 : ℤ) < a.num then .negInf else .posInf
  | .fin a, .fin b => .fin (a.mul b)

/-- JavaScript division (the model has no -0, so division by `fin 0` behaves
like division by +0). -/
def jsDiv : JsNum → JsNum → JsNum
  | .nan, _ => .nan
  | _, .nan => .nan
  | .posInf, .posInf => .nan
  | .posInf, .negInf => .nan
  | .negInf, .posInf => .nan
  | .negInf, .negInf => .nan
  | .posInf, .fin b => if (0 : ℤ) ≤ b.num then .posInf else .negInf
  | .negInf, .fin b => if (0 : ℤ) ≤ b.num then .negInf else .posInf
  | .fin _, .posInf => .fin (JsQ.ofInt 0)
  | .fin _, .negInf => .fin (JsQ.ofInt 0)
  | .fin a, .fin b =>
    if b.isZero then (if a.isZero then .nan else if (0 : ℤ) < a.num then .posInf else .negInf)
    else .fin (a.div b)

/-- JavaScript `Math.min` (NaN-propagating). -/
def jsMin : JsNum → JsNum → JsNum
  | .nan, _ => .nan
  | _, .nan => .nan
  | a, b => if jsLt b a then b else a

/-- JavaScript truthiness of a number: NaN and 0 are falsy. -/
def jsTruthy : JsNum → Bool
  | .nan => false
  | .fin q => !q.isZero
  | _ => true

/-- JavaScript `Math.round` on a number. -/
def jsRound : JsNum → JsNum
  | .fin q => .fin (JsQ.ofInt q.round)
  | x => x

/-- JavaScript whitespace (the characters relevant to `trim` and numeric
parsing; exotic Unicode space variants are omitted, none appear in the data). -/
def isJsWhitespace (c : Char) : Bool :=
  c == ' ' || c == '\t' || c == '\n' || c == '\r' || c == '\x0b' || c == '\x0c' ||
  c == ' ' || c == '﻿'

/-- `s.split(sep)[0]`: the prefix of `cs` before the first `sep`. -/
def beforeFirst (sep : Char) (cs : List Char) : List Char :=
  cs.takeWhile (fun c => c != sep)

/-- Worker for `splitChars`; `acc` holds the current segment reversed. -/
def splitCharsAux (sep : Char) : List Char → List Char → List (List Char)
  | [], acc => [acc.reverse]
  | c :: rest, acc =>
    if c = sep then acc.reverse :: splitCharsAux sep rest []
    else splitCharsAux sep rest (c :: acc)

/-- JavaScript `s.split(sep)` for a single-character separator. -/
def splitChars (sep : Char) (cs : List Char) : List (List Char) :=
  splitCharsAux sep cs []

/-- The value of a decimal digit string. -/
def digitsToNat (cs : List Char) : ℕ :=
  cs.foldl (fun n c => 10 * n + (c.toNat - 48)) 0

/-- Exponent digits of a float literal (`0` when the exponent part is not
well formed, matching longest-valid-prefix parsing). -/
def parseExpDigits (cs : List Char) (neg : Bool) : ℤ :=
  let ds := cs.takeWhile Char.isDigit
  if ds.isEmpty then 0
  else if neg then -(digitsToNat ds : ℤ) else (digitsToNat ds : ℤ)

/-- Optional sign of a float-literal exponent. -/
def parseExpSign : List Char → ℤ
  | '+' :: rest => parseExpDigits rest false
  | '-' :: rest => parseExpDigits rest true
  | rest => parseExpDigits rest false

/-- Exponent part of a float literal, `0` if absent or malformed. -/
def parseExp : List Char → ℤ
  | 'e' :: rest => parseExpSign rest
  | 'E' :: rest => parseExpSign rest
  | _ => 0

/-- Ten to an integer power, as a `JsQ`. -/
def pow10 (z : ℤ) : JsQ :=
  if h : 0 ≤ z then JsQ.ofInt ((10 : ℤ) ^ z.toNat)
  else ⟨1, (10 : ℤ) ^ (-z).toNat, by positivity⟩

/-- Unsigned part of `parseFloat`: `Infinity`, or digits with an optional
fraction and exponent; NaN when no digit is found. -/
def parseFloatMag : List Char → JsNum
  | 'I' :: 'n' :: 'f' :: 'i' :: 'n' :: 'i' :: 't' :: 'y' :: _ => .posInf
  | cs =>
    let ds := cs.takeWhile Char.isDigit
    let rest := cs.dropWhile Char.isDigit
    match rest with
    | '.' :: rest2 =>
      let fs := rest2.takeWhile Char.isDigit
      if ds.isEmpty && fs.isEmpty then .nan
      else
        .fin (((JsQ.ofInt (digitsToNat ds)).add
            ⟨(digitsToNat fs : ℤ), (10 : ℤ) ^ fs.length, by positivity⟩).mul
          (pow10 (parseExp (rest2.dropWhile Char.isDigit))))
    | _ =>
      if ds.isEmpty then .nan
      else .fin ((JsQ.ofInt (digitsToNat ds)).mul (pow10 (parseExp rest)))

/-- Negate / keep a parsed magnitude according to the sign character. -/
def applySign (neg : Bool) : JsNum → JsNum
  | .nan => .nan
  | .posInf => if neg then .negInf else .posInf
  | .negInf => if neg then .posInf else .negInf
  | .fin q => .fin (if neg then q.neg else q)

/-- `parseFloat` after whitespace stripping: optional sign then magnitude. -/
def parseFloatSigned : List Char → JsNum
  | '+' :: rest => applySign false (parseFloatMag rest)
  | '-' :: rest => applySign true (parseFloatMag rest)
  | cs => applySign false (parseFloatMag cs)

/-- JavaScript `parseFloat`. -/
def jsParseFloat (cs : List Char) : JsNum :=
  parseFloatSigned (cs.dropWhile isJsWhitespace)

/-- Hexadecimal digit test. -/
def isHexDigit (c : Char) : Bool :=
  c.isDigit || ('a' ≤ c && c ≤ 'f') || ('A' ≤ c && c ≤ 'F')

/-- Value of a hexadecimal digit. -/
def hexVal (c : Char) : ℕ :=
  if c.isDigit then c.toNat - 48
  else if 'a' ≤ c && c ≤ 'f' then c.toNat - 87
  else c.toNat - 55

/-- The value of a hexadecimal digit string. -/
def hexToNat (cs : List Char) : ℕ :=
  cs.foldl (fun n c => 16 * n + hexVal c) 0

/-- Hexadecimal branch of `parseInt` (after a `0x` prefix). -/
def parseIntHex (cs : List Char) : JsNum :=
  let hs := cs.takeWhile isHexDigit
  if hs.isEmpty then .nan else .fin (JsQ.ofInt (hexToNat hs))

/-- Unsigned part of radix-free `parseInt`: `0x` prefix means hexadecimal,
otherwise leading decimal digits; NaN when no digit is found. -/
def parseIntMag : List Char → JsNum
  | '0' :: 'x' :: rest => parseIntHex rest
  | '0' :: 'X' :: rest => parseIntHex rest
  | cs =>
    let ds := cs.takeWhile Char.isDigit
    if ds.isEmpty then .nan else .fin (JsQ.ofInt (digitsToNat ds))

/-- `parseInt` after whitespace stripping: optional sign then magnitude. -/
def parseIntSigned : List Char → JsNum
  | '+' :: rest => applySign false (parseIntMag rest)
  | '-' :: rest => applySign true (parseIntMag rest)
  | cs => applySign false (parseIntMag cs)

/-- JavaScript `parseInt` with no radix argument. -/
def jsParseInt (cs : List Char) : JsNum :=
  parseIntSigned (cs.dropWhile isJsWhitespace)

/-- `!value.trim()`: true iff every character is whitespace. -/
def jsTrimEmpty (cs : List Char) : Bool := cs.all isJsWhitespace

/-- A stored vital value: a number (possibly NaN/infinite), a string, or
null/undefined. -/
inductive VitalValue where
  | num (x : JsNum)
  | str (s : String)
  | vNull
deriving DecidableEq

/-- One reading record `{value, unit?, goal?}`. -/
structure Reading where
  value : VitalValue
  unit : Option String := none
  goal : Option JsNum := none
deriving DecidableEq

/-- The metric kinds of the evaluator. -/
inductive VitalType where
  | heartRate
  | steps
  | sleep
  | water
  | temperature
  | oxygenLevel
  | bloodPressure
  | weight
deriving DecidableEq

/-- The `userData.vitals` map: one optional reading per metric kind (absent
slot = the property is undefined). -/
structure Vitals where
  heartRate : Option Reading := none
  steps : Option Reading := none
  sleep : Option Reading := none
  water : Option Reading := none
  bloodPressure : Option Reading := none
  oxygenLevel : Option Reading := none
  temperature : Option Reading := none
  weight : Option Reading := none
deriving DecidableEq

/-- The empty reading set. -/
def emptyVitals : Vitals := {}

/-- `g || d`, and equally `(g && !isNaN(g)) ? g : d`: the stored goal when it
is a truthy non-NaN number, else the default.  (Both guard idioms of the
source coincide: NaN and 0 are falsy.) -/
def goalOr (g : Option JsNum) (d : JsQ) : JsNum :=
  match g with
  | some (.fin q) => if q.isZero then .fin d else .fin q
  | some .posInf => .posInf
  | some .negInf => .negInf
  | _ => .fin d

/-- Home-screen `calculateVitalStatus` (src/unnamed/part_003 lines 1461-1546):
numeric cases heartRate / steps / water / temperature / oxygenLevel with
default "Normal"; string cases sleep / bloodPressure with default "Unknown". -/
def calculateVitalStatus (v : Vitals) (t : VitalType) (value : VitalValue) : String :=
  match value with
  | .vNull => "Unknown"
  | .num x =>
    if x.isNaN then "Unknown"
    else
      match t with
      | .heartRate =>
        if jsLt x 60 then "Low" else if jsGt x 100 then "High" else "Normal"
      | .steps =>
        let stepsGoal := goalOr (v.steps.bind fun r => r.goal) 10000
        let percentage := jsMul (jsDiv x stepsGoal) 100
        if jsGe percentage 100 then "Achieved"
        else if jsGe percentage 75 then "Almost There"
        else if jsGe percentage 50 then "On Track"
        else if jsGe percentage 25 then "Getting Started"
        else "Need More"
      | .water =>
        let waterGoal := goalOr (v.water.bind fun r => r.goal) 2.5
        let waterPercentage := jsMul (jsDiv x waterGoal) 100
        if jsGe waterPercentage 100 then "Hydrated"
        else if jsGe waterPercentage 75 then "Almost There"
        else if jsGe waterPercentage 50 then "Halfway"
        else "Need More"
      | .temperature =>
        if jsLt x 36 then "Low" else if jsGt x 37.5 then "High" else "Normal"
      | .oxygenLevel =>
        if jsLt x 95 then "Low" else "Normal"
      | _ => "Normal"
  | .str s =>
    if jsTrimEmpty s.data then "Unknown"
    else
      match t with
      | .sleep =>
        let hours := jsParseFloat (beforeFirst 'h' s.data)
        if hours.isNaN then "Unknown"
        else if jsGe hours 7 && jsLe hours 9 then "Good"
        else if jsGt hours 9 then "Too Much"
        else "Not Enough"
      | .bloodPressure =>
        match splitChars '/' s.data with
        | [p1, p2] =>
          let systolic := jsParseInt p1
          let diastolic := jsParseInt p2
          if systolic.isNaN || diastolic.isNaN then "Unknown"
          else if jsGe systolic 140 || jsGe diastolic 90 then "High"
          else if jsLe systolic 90 || jsLe diastolic 60 then "Low"
          else "Normal"
        | _ => "Unknown"
      | _ => "Unknown"

/-- Track-screen `calculateVitalStatus` (src/unnamed/part_003 lines 3293-3376):
same as the home-screen variant except the numeric `steps` case is replaced by
a `weight` case (<45 "Low", >100 "High", else "Normal"). -/
def calculateVitalStatusW (v : Vitals) (t : VitalType) (value : VitalValue) : String :=
  match value with
  | .vNull => "Unknown"
  | .num x =>
    if x.isNaN then "Unknown"
    else
      match t with
      | .heartRate =>
        if jsLt x 60 then "Low" else if jsGt x 100 then "High" else "Normal"
      | .weight =>
        if jsLt x 45 then "Low" else if jsGt x 100 then "High" else "Normal"
      | .water =>
        let waterGoal := goalOr (v.water.bind fun r => r.goal) 2.5
        let waterPercentage := jsMul (jsDiv x waterGoal) 100
        if jsGe waterPercentage 100 then "Hydrated"
        else if jsGe waterPercentage 75 then "Almost There"
        else if jsGe waterPercentage 50 then "Halfway"
        else "Need More"
      | .temperature =>
        if jsLt x 36 then "Low" else if jsGt x 37.5 then "High" else "Normal"
      | .oxygenLevel =>
        if jsLt x 95 then "Low" else "Normal"
      | _ => "Normal"
  | .str s =>
    if jsTrimEmpty s.data then "Unknown"
    else
      match t with
      | .sleep =>
        let hours := jsParseFloat (beforeFirst 'h' s.data)
        if hours.isNaN then "Unknown"
        else if jsGe hours 7 && jsLe hours 9 then "Good"
        else if jsGt hours 9 then "Too Much"
        else "Not Enough"
      | .bloodPressure =>
        match splitChars '/' s.data with
        | [p1, p2] =>
          let systolic := jsParseInt p1
          let diastolic := jsParseInt p2
          if systolic.isNaN || diastolic.isNaN then "Unknown"
          else if jsGe systolic 140 || jsGe diastolic 90 then "High"
          else if jsLe systolic 90 || jsLe diastolic 60 then "Low"
          else "Normal"
        | _ => "Unknown"
      | _ => "Unknown"

/-- Heart-rate band table of the full evaluator (lines 1566-1586). -/
def heartRateBands (hr : JsNum) : JsQ :=
  if jsGe hr 60 && jsLe hr 100 then
    (if jsGe hr 60 && jsLe hr 80 then 25 else 20)
  else if jsGt hr 100 && jsLe hr 120 then 10
  else if jsGt hr 120 then 0
  else if jsGe hr 50 && jsLt hr 60 then 15
  else 0

/-- Steps band table over the capped goal percentage (lines 1605-1627). -/
def stepsBands (p : JsNum) : JsQ :=
  if jsGe p 0.9 && jsLe p 1.1 then 25
  else if jsGt p 1.1 && jsLe p 1.5 then 20
  else if jsGt p 1.5 then 15
  else if jsGe p 0.7 && jsLt p 0.9 then 20
  else if jsGe p 0.5 && jsLt p 0.7 then 15
  else if jsGe p 0.3 && jsLt p 0.5 then 10
  else 5

/-- Sleep band table over parsed hours (lines 1660-1682). -/
def sleepBands (h : JsNum) : JsQ :=
  if jsGe h 7 && jsLe h 9 then
    (if jsGe h 7 && jsLe h 8 then 25 else 22)
  else if jsGe h 6 && jsLt h 7 then 15
  else if jsGt h 9 && jsLe h 10 then 15
  else if jsGe h 5 && jsLt h 6 then 8
  else if jsGt h 10 && jsLe h 12 then 8
  else 0

/-- Water band table over the goal ratio (lines 1702-1726). -/
def waterBands (r : JsNum) : JsQ :=
  if jsGe r 0.9 && jsLe r 1.2 then 25
  else if jsGt r 1.2 && jsLe r 1.5 then 20
  else if jsGt r 1.5 && jsLe r 2.0 then 15
  else if jsGt r 2.0 then 5
  else if jsGe r 0.7 && jsLt r 0.9 then 20
  else if jsGe r 0.5 && jsLt r 0.7 then 15
  else if jsGe r 0.3 && jsLt r 0.5 then 10
  else 5

/-- Blood-pressure band table over systolic (lines 1760-1776; `bpScore` is
initialised to 0, so a fractional systolic strictly between 129 and 130, or
between 139 and 140, or between 159 and 160, keeps 0). -/
def bpBands (sys : JsNum) : JsQ :=
  if jsLt sys 120 then 25
  else if jsGe sys 120 && jsLe sys 129 then 20
  else if jsGe sys 130 && jsLe sys 139 then 15
  else if jsGe sys 140 && jsLe sys 159 then 5
  else if jsGe sys 160 then 0
  else 0

/-- Oxygen band table (lines 1799-1814). -/
def oxygenBands (o : JsNum) : JsQ :=
  if jsGe o 95 && jsLe o 100 then 25
  else if jsGe o 90 && jsLt o 95 then 15
  else if jsGe o 85 && jsLt o 90 then 5
  else if jsLt o 85 then 0
  else if jsGt o 100 then 0
  else 0

/-- Celsius temperature band table (lines 1836-1848). -/
def tempBandsC (t : JsNum) : JsQ :=
  if jsGe t 36.1 && jsLe t 37.2 then 25
  else if (jsGe t 35.5 && jsLt t 36.1) || (jsGt t 37.2 && jsLe t 38) then 15
  else if (jsGe t 35 && jsLt t 35.5) || (jsGt t 38 && jsLe t 39) then 5
  else 0

/-- Fahrenheit temperature band table (lines 1850-1862). -/
def tempBandsF (t : JsNum) : JsQ :=
  if jsGe t 97 && jsLe t 99 then 25
  else if (jsGe t 96 && jsLt t 97) || (jsGt t 99 && jsLe t 100.4) then 15
  else if (jsGe t 95 && jsLt t 96) || (jsGt t 100.4 && jsLe t 102.2) then 5
  else 0

/-- Weight band table of the track-screen evaluator (lines 3671-3683). -/
def weightBands (w : JsNum) : JsQ :=
  if jsGe w 50 && jsLe w 100 then 25
  else if (jsGe w 45 && jsLt w 50) || (jsGt w 100 && jsLe w 110) then 15
  else if (jsGe w 40 && jsLt w 45) || (jsGt w 110 && jsLe w 120) then 5
  else 0

/-!
Each `...Component` function embeds one block of the full
`calculateHealthProgress` (home screen lines 1550-1881, track screen lines
3378-3699): `some p` means the block incremented `scoreComponents` and added
`p` to `score`; `none` means the block was skipped.
-/

/-- Heart-rate block (lines 1559-1592): requires a present non-NaN number. -/
def heartRateComponent : Option Reading → Option JsQ
  | none => none
  | some r =>
    match r.value with
    | .num .nan => none
    | .num x => some (heartRateBands x)
    | _ => none

/-- Steps block (lines 1595-1635, home variant only): requires a present
non-NaN number; goal defaults to 10000; percentage capped at 1.5. -/
def stepsComponent : Option Reading → Option JsQ
  | none => none
  | some r =>
    match r.value with
    | .num .nan => none
    | .num x =>
      let stepsGoal := goalOr r.goal 10000
      let percentage := jsMin (jsDiv x stepsGoal) 1.5
      some (stepsBands percentage)
    | _ => none

/-- Sleep block (lines 1638-1690): hours come from the prefix before `h` of a
string containing `h`, or directly from a non-NaN number, else stay 0; the
metric is scored only when hours is a number strictly greater than 0. -/
def sleepComponent : Option Reading → Option JsQ
  | none => none
  | some r =>
    let sleepHours : JsNum :=
      match r.value with
      | .str s =>
        if s.data.contains 'h' then jsParseFloat (beforeFirst 'h' s.data)
        else .fin (JsQ.ofInt 0)
      | .num .nan => .fin (JsQ.ofInt 0)
      | .num x => x
      | .vNull => .fin (JsQ.ofInt 0)
    if !sleepHours.isNaN && jsGt sleepHours 0 then some (sleepBands sleepHours)
    else none

/-- Water block (lines 1693-1732): requires a present non-NaN number; goal
defaults to 2.5; ratio is not capped. -/
def waterComponent : Option Reading → Option JsQ
  | none => none
  | some r =>
    match r.value with
    | .num .nan => none
    | .num x =>
      let waterGoal := goalOr r.goal 2.5
      let waterRatio := jsDiv x waterGoal
      some (waterBands waterRatio)
    | _ => none

/-- Shared tail of the blood-pressure block (lines 1758-1784): score only when
systolic is a number strictly greater than 0. -/
def bpFinish (sys : JsNum) : Option JsQ :=
  if !sys.isNaN && jsGt sys 0 then some (bpBands sys) else none

/-- Blood-pressure block (lines 1735-1786): a string containing `/` is split
and both leading parts are parsed with `parseInt` (no token-count check here,
unlike the status function); a plain number is taken as systolic. -/
def bloodPressureComponent : Option Reading → Option JsQ
  | none => none
  | some r =>
    match r.value with
    | .str s =>
      if s.data.contains '/' then
        match splitChars '/' s.data with
        | p1 :: _ :: _ => bpFinish (jsParseInt p1)
        | _ => bpFinish (.fin (JsQ.ofInt 0))
      else bpFinish (.fin (JsQ.ofInt 0))
    | .num x => bpFinish x
    | .vNull => none

/-- Oxygen block (lines 1789-1822): requires a present non-NaN number; a
value above 100 is counted and scored 0 as an invalid reading. -/
def oxygenLevelComponent : Option Reading → Option JsQ
  | none => none
  | some r =>
    match r.value with
    | .num .nan => none
    | .num x => some (oxygenBands x)
    | _ => none

/-- Temperature block (lines 1825-1870): requires a present non-NaN number;
the `unit` field (defaulted to °C when absent or empty) selects the band
table, and an unrecognised unit keeps `tempScore = 0` while still counting
the component. -/
def temperatureComponent : Option Reading → Option JsQ
  | none => none
  | some r =>
    match r.value with
    | .num .nan => none
    | .num x =>
      let unit := match r.unit with
        | some u => if u = "" then "°C" else u
        | none => "°C"
      some (if unit = "°C" then tempBandsC x
        else if unit = "°F" then tempBandsF x
        else 0)
    | _ => none

/-- Weight block (track screen lines 3659-3689): requires a present non-NaN
number. -/
def weightComponent : Option Reading → Option JsQ
  | none => none
  | some r =>
    match r.value with
    | .num .nan => none
    | .num x => some (weightBands x)
    | _ => none

/-- The component blocks of the home-screen `calculateHealthProgress`, in
source order (lines 1550-1881; no weight block). -/
def componentsA (v : Vitals) : List (Option JsQ) :=
  [heartRateComponent v.heartRate, stepsComponent v.steps, sleepComponent v.sleep,
   waterComponent v.water, bloodPressureComponent v.bloodPressure,
   oxygenLevelComponent v.oxygenLevel, temperatureComponent v.temperature]

/-- The component blocks of the track-screen `calculateHealthProgress`, in
source order (lines 3378-3699; steps block removed, weight block added). -/
def componentsB (v : Vitals) : List (Option JsQ) :=
  [heartRateComponent v.heartRate, sleepComponent v.sleep, waterComponent v.water,
   bloodPressureComponent v.bloodPressure, oxygenLevelComponent v.oxygenLevel,
   temperatureComponent v.temperature, weightComponent v.weight]

/-- One step of the `score` / `scoreComponents` accumulation. -/
def tally : JsQ × ℕ → Option JsQ → JsQ × ℕ
  | st, none => st
  | (s, n), some p => (s.add p, n + 1)

/-- Final normalisation shared by both full evaluators (lines 1876-1881 and
3694-3699): `scoreComponents == 0` returns 0, otherwise
`Math.round((score / (scoreComponents * 25)) * 100)`. -/
def normalizeScore (st : JsQ × ℕ) : ℤ :=
  if st.2 = 0 then 0
  else ((st.1.div (JsQ.ofInt ((st.2 : ℤ) * 25))).mul 100).round

/-- Home-screen `calculateHealthProgress` (lines 1550-1881). -/
def calculateHealthProgress (v : Vitals) : ℤ :=
  normalizeScore ((componentsA v).foldl tally (0, 0))

/-- Track-screen `calculateHealthProgress` (lines 3378-3699). -/
def calculateHealthProgressB (v : Vitals) : ℤ :=
  normalizeScore ((componentsB v).foldl tally (0, 0))

/-- The metrics actually scored by the home-screen evaluator. -/
def codeScoredA (v : Vitals) : List JsQ := (componentsA v).filterMap id

/-- The metrics actually scored by the track-screen evaluator. -/
def codeScoredB (v : Vitals) : List JsQ := (componentsB v).filterMap id

/-- Reading shape of the simplified home screen: its `vitals` entries always
exist and carry a `type` discriminator field. -/
structure SimpleReading where
  type : String
  value : VitalValue
  goal : Option JsNum := none
deriving DecidableEq

/-- The `userData.vitals` of the simplified home screen. -/
structure SimpleVitals where
  heartRate : SimpleReading
  steps : SimpleReading
  sleep : SimpleReading
  water : SimpleReading
deriving DecidableEq

/-- Simplified home-screen `calculateHealthProgress` (src/unnamed/part_003
lines 2619-2653): flat 25-point heart-rate and sleep checks, and uncapped
proportional steps and water contributions `(value / goal) * 25`. -/
def simpleCalculateHealthProgress (v : SimpleVitals) : JsNum :=
  let score : JsNum := .fin (JsQ.ofInt 0)
  let score :=
    match v.heartRate.value with
    | .num x =>
      if v.heartRate.type == "number" && jsGe x 60 && jsLe x 100 then jsAdd score 25 else score
    | _ => score
  let score :=
    match v.steps.value, v.steps.goal with
    | .num x, some g =>
      if v.steps.type == "number" && jsTruthy g then jsAdd score (jsMul (jsDiv x g) 25)
      else score
    | _, _ => score
  let score :=
    match v.sleep.value with
    | .str s =>
      if v.sleep.type == "string" then
        let sleepHours := jsParseFloat (beforeFirst 'h' s.data)
        if jsGe sleepHours 7 && jsLe sleepHours 9 then jsAdd score 25 else score
      else score
    | _ => score
  let score :=
    match v.water.value, v.water.goal with
    | .num x, some g =>
      if v.water.type == "number" && jsTruthy g then jsAdd score (jsMul (jsDiv x g) 25)
      else score
    | _, _ => score
  jsRound score

/-!
Claim-side definitions for the wellness-score formula.  They are modelled
from the spec wording, not from the source: a metric counts whenever its
value is present and parseable, and contributes its band score, with no
further per-metric inclusion guard.
-/

/-- Modelled from the spec: sleep counts whenever a parseable hour count is
available (string whose leading-hour parse is not NaN, or a non-NaN number),
with no `hours > 0` requirement. -/
def claimSleepComponent : Option Reading → Option JsQ
  | none => none
  | some r =>
    match r.value with
    | .str s =>
      match jsParseFloat (beforeFirst 'h' s.data) with
      | .nan => none
      | h => some (sleepBands h)
    | .num .nan => none
    | .num x => some (sleepBands x)
    | .vNull => none

/-- Modelled from the spec: blood pressure counts whenever the value is a
well-formed `systolic/diastolic` string (exactly two tokens, both parseable)
or a plain non-NaN number, with no `systolic > 0` requirement. -/
def claimBloodPressureComponent : Option Reading → Option JsQ
  | none => none
  | some r =>
    match r.value with
    | .str s =>
      match splitChars '/' s.data with
      | [p1, p2] =>
        match jsParseInt p1, jsParseInt p2 with
        | .nan, _ => none
        | _, .nan => none
        | sys, _ => some (bpBands sys)
      | _ => none
    | .num .nan => none
    | .num x => some (bpBands x)
    | .vNull => none

/-- Modelled from the spec: the per-metric component list of the claimed
score formula for the home-screen metric set (the other metric kinds have no
inclusion guard beyond present-and-parseable in the source either, so their
code components are reused). -/
def claimComponentsA (v : Vitals) : List (Option JsQ) :=
  [heartRateComponent v.heartRate, stepsComponent v.steps, claimSleepComponent v.sleep,
   waterComponent v.water, claimBloodPressureComponent v.bloodPressure,
   oxygenLevelComponent v.oxygenLevel, temperatureComponent v.temperature]

/-- Modelled from the spec: `countScored`, the number of metrics with a
present, parseable value. -/
def claimCountScored (v : Vitals) : ℕ := ((claimComponentsA v).filterMap id).length

/-- Modelled from the spec: `totalScore`, the sum of the band scores of the
metrics with a present, parseable value. -/
def claimTotalScore (v : Vitals) : ℚ :=
  (((claimComponentsA v).filterMap id).map JsQ.toRat).sum

/-- Modelled from the spec:
`score = countScored == 0 ? 0 : round(totalScore / (countScored * 25) * 100)`. -/
def claimScore (v : Vitals) : ℤ :=
  if claimCountScored v = 0 then 0
  else ⌊claimTotalScore v / (claimCountScored v * 25) * 100 + 1 / 2⌋

/-- Replace one slot of a reading set. -/
def setSlot (v : Vitals) : VitalType → Option Reading → Vitals
  | .heartRate, r => { v with heartRate := r }
  | .steps, r => { v with steps := r }
  | .sleep, r => { v with sleep := r }
  | .water, r => { v with water := r }
  | .temperature, r => { v with temperature := r }
  | .oxygenLevel, r => { v with oxygenLevel := r }
  | .bloodPressure, r => { v with bloodPressure := r }
  | .weight, r => { v with weight := r }

/-- Replace the display unit of a reading, keeping value and goal. -/
def setUnitR (r : Option Reading) (u : Option String) : Option Reading :=
  r.map fun x => { x with unit := u }

/-- A value the evaluator treats as absent data: null/undefined or NaN. -/
def badValue (x : VitalValue) : Prop := x = .vNull ∨ x = .num .nan

/-! Semantic bridge lemmas: `JsQ` operations against their rational values. -/

theorem JsQ.denQ_pos (a : JsQ) : (0 : ℚ) < (a.den : ℚ) := by exact_mod_cast a.dpos

theorem JsQ.denQ_ne (a : JsQ) : (a.den : ℚ) ≠ 0 := ne_of_gt a.denQ_pos

theorem JsQ.toRat_ofInt (n : ℤ) : (JsQ.ofInt n).toRat = (n : ℚ) := by
  simp [JsQ.ofInt, JsQ.toRat]

theorem JsQ.toRat_ofNat (n : ℕ) :
    (@OfNat.ofNat JsQ n (instOfNatJsQ n)).toRat = (n : ℚ) := by
  show (JsQ.ofInt n).toRat = _
  rw [JsQ.toRat_ofInt]
  norm_cast

theorem JsQ.toRat_zero : (0 : JsQ).toRat = 0 := by
  rw [JsQ.toRat_ofNat]
  norm_num

theorem JsQ.toRat_add (a b : JsQ) : (a.add b).toRat = a.toRat + b.toRat := by
  have ha := a.denQ_ne
  have hb := b.denQ_ne
  simp only [JsQ.add, JsQ.toRat]
  push_cast
  field_simp

theorem JsQ.toRat_mul (a b : JsQ) : (a.mul b).toRat = a.toRat * b.toRat := by
  have ha := a.denQ_ne
  have hb := b.denQ_ne
  simp only [JsQ.mul, JsQ.toRat]
  push_cast
  field_simp

theorem JsQ.toRat_neg (a : JsQ) : a.neg.toRat = -a.toRat := by
  simp [JsQ.neg, JsQ.toRat, neg_div]

theorem JsQ.toRat_div (a b : JsQ) (hb : b.num ≠ 0) :
    (a.div b).toRat = a.toRat / b.toRat := by
  have ha1 := a.denQ_ne
  have hb1 := b.denQ_ne
  have hbq : (b.num : ℚ) ≠ 0 := Int.cast_ne_zero.mpr hb
  rcases lt_or_gt_of_ne hb with h | h
  · rw [JsQ.div, dif_neg (by omega), dif_pos h]
    simp only [JsQ.toRat]
    push_cast
    field_simp
  · rw [JsQ.div, dif_pos h]
    simp only [JsQ.toRat]
    push_cast
    field_simp

theorem JsQ.ble_iff (a b : JsQ) : a.ble b = true ↔ a.toRat ≤ b.toRat := by
  rw [JsQ.ble, decide_eq_true_iff, JsQ.toRat, JsQ.toRat,
    div_le_div_iff₀ a.denQ_pos b.denQ_pos]
  exact_mod_cast Iff.rfl

theorem JsQ.blt_iff (a b : JsQ) : a.blt b = true ↔ a.toRat < b.toRat := by
  rw [JsQ.blt, decide_eq_true_iff, JsQ.toRat, JsQ.toRat,
    div_lt_div_iff₀ a.denQ_pos b.denQ_pos]
  exact_mod_cast Iff.rfl

theorem JsQ.isZero_iff (a : JsQ) : a.isZero = true ↔ a.toRat = 0 := by
  rw [JsQ.isZero, decide_eq_true_iff, JsQ.toRat, div_eq_zero_iff]
  simp [a.denQ_ne]

theorem JsQ.round_eq (a : JsQ) : a.round = ⌊a.toRat + 1 / 2⌋ := by
  have hd : ((2 * a.den).toNat : ℤ) = 2 * a.den := Int.toNat_of_nonneg (by linarith [a.dpos])
  have hdQ : (((2 * a.den).toNat : ℕ) : ℚ) = 2 * (a.den : ℚ) := by exact_mod_cast hd
  have hval :
      a.toRat + 1 / 2 = ((2 * a.num + a.den : ℤ) : ℚ) / (((2 * a.den).toNat : ℕ) : ℚ) := by
    have ha := a.denQ_ne
    rw [hdQ, JsQ.toRat]
    push_cast
    field_simp
    ring
  rw [hval, Rat.floor_intCast_div_natCast, JsQ.round, hd]

/-! Bridge lemmas for `JsNum` comparisons against literals. -/

theorem jsNum_natLit_eq (n : ℕ) : (OfNat.ofNat n : JsNum) = .fin (JsQ.ofInt n) := rfl

theorem jsLe_fin_fin (a b : JsQ) : jsLe (.fin a) (.fin b) = a.ble b := rfl

theorem jsLt_fin_fin (a b : JsQ) : jsLt (.fin a) (.fin b) = a.blt b := rfl

/-! Accumulation lemmas: the sequential `score`/`scoreComponents` fold equals
count and sum over the included components. -/

theorem foldl_tally_len (l : List (Option JsQ)) (s : JsQ) (n : ℕ) :
    (l.foldl tally (s, n)).2 = n + (l.filterMap id).length := by
  induction l generalizing s n with
  | nil => simp
  | cons o rest ih =>
    cases o with
    | none => simpa [tally] using ih s n
    | some p =>
      simp only [List.foldl_cons, List.filterMap_cons, id_eq, tally, List.length_cons]
      rw [ih]
      omega

theorem foldl_tally_sum (l : List (Option JsQ)) (s : JsQ) (n : ℕ) :
    (l.foldl tally (s, n)).1.toRat = s.toRat + ((l.filterMap id).map JsQ.toRat).sum := by
  induction l generalizing s n with
  | nil => simp
  | cons o rest ih =>
    cases o with
    | none => simpa [tally] using ih s n
    | some p =>
      simp only [List.foldl_cons, List.filterMap_cons, id_eq, tally, List.map_cons,
        List.sum_cons]
      rw [ih, JsQ.toRat_add]
      ring

theorem normalizeScore_formula (l : List (Option JsQ)) :
    normalizeScore (l.foldl tally (0, 0)) =
      if (l.filterMap id).length = 0 then 0
      else
        ⌊((l.filterMap id).map JsQ.toRat).sum / ((l.filterMap id).length * 25) * 100 + 1 / 2⌋ := by
  rw [normalizeScore, foldl_tally_len]
  simp only [Nat.zero_add]
  by_cases h : (l.filterMap id).length = 0
  · rw [if_pos h, if_pos h]
  · have hnum : (JsQ.ofInt (((l.filterMap id).length : ℤ) * 25)).num ≠ 0 := by
      show ((l.filterMap id).length : ℤ) * 25 ≠ 0
      have : ((l.filterMap id).length : ℤ) ≠ 0 := by exact_mod_cast h
      exact mul_ne_zero this (by norm_num)
    rw [if_neg h, if_neg h, JsQ.round_eq, JsQ.toRat_mul, JsQ.toRat_div _ _ hnum,
      foldl_tally_sum, JsQ.toRat_ofInt, JsQ.toRat_ofNat, JsQ.toRat_ofNat]
    push_cast
    ring_nf

/-! Range lemmas: every band table stays within [0, 25]. -/

theorem heartRateBands_range (x : JsNum) :
    0 ≤ (heartRateBands x).toRat ∧ (heartRateBands x).toRat ≤ 25 := by
  unfold heartRateBands
  split_ifs <;> rw [JsQ.toRat_ofNat] <;> norm_num

theorem stepsBands_range (x : JsNum) :
    0 ≤ (stepsBands x).toRat ∧ (stepsBands x).toRat ≤ 25 := by
  unfold stepsBands
  split_ifs <;> rw [JsQ.toRat_ofNat] <;> norm_num

theorem sleepBands_range (x : JsNum) :
    0 ≤ (sleepBands x).toRat ∧ (sleepBands x).toRat ≤ 25 := by
  unfold sleepBands
  split_ifs <;> rw [JsQ.toRat_ofNat] <;> norm_num

theorem waterBands_range (x : JsNum) :
    0 ≤ (waterBands x).toRat ∧ (waterBands x).toRat ≤ 25 := by
  unfold waterBands
  split_ifs <;> rw [JsQ.toRat_ofNat] <;> norm_num

theorem bpBands_range (x : JsNum) :
    0 ≤ (bpBands x).toRat ∧ (bpBands x).toRat ≤ 25 := by
  unfold bpBands
  split_ifs <;> rw [JsQ.toRat_ofNat] <;> norm_num

theorem oxygenBands_range (x : JsNum) :
    0 ≤ (oxygenBands x).toRat ∧ (oxygenBands x).toRat ≤ 25 := by
  unfold oxygenBands
  split_ifs <;> rw [JsQ.toRat_ofNat] <;> norm_num

theorem tempBandsC_range (x : JsNum) :
    0 ≤ (tempBandsC x).toRat ∧ (tempBandsC x).toRat ≤ 25 := by
  unfold tempBandsC
  split_ifs <;> rw [JsQ.toRat_ofNat] <;> norm_num

theorem tempBandsF_range (x : JsNum) :
    0 ≤ (tempBandsF x).toRat ∧ (tempBandsF x).toRat ≤ 25 := by
  unfold tempBandsF
  split_ifs <;> rw [JsQ.toRat_ofNat] <;> norm_num

theorem weightBands_range (x : JsNum) :
    0 ≤ (weightBands x).toRat ∧ (weightBands x).toRat ≤ 25 := by
  unfold weightBands
  split_ifs <;> rw [JsQ.toRat_ofNat] <;> norm_num

theorem heartRateComponent_range {r : Option Reading} {p : JsQ}
    (h : heartRateComponent r = some p) : 0 ≤ p.toRat ∧ p.toRat ≤ 25 := by
  unfold heartRateComponent at h
  repeat' split at h
  all_goals first
    | exact Option.noConfusion h
    | (rw [Option.some.injEq] at h; subst h; exact heartRateBands_range _)

theorem stepsComponent_range {r : Option Reading} {p : JsQ}
    (h : stepsComponent r = some p) : 0 ≤ p.toRat ∧ p.toRat ≤ 25 := by
  unfold stepsComponent at h
  repeat' split at h
  all_goals first
    | exact Option.noConfusion h
    | (rw [Option.some.injEq] at h; subst h; exact stepsBands_range _)

theorem sleepComponent_range {r : Option Reading} {p : JsQ}
    (h : sleepComponent r = some p) : 0 ≤ p.toRat ∧ p.toRat ≤ 25 := by
  unfold sleepComponent at h
  repeat' (first | split at h | dsimp only [] at h)
  all_goals first
    | exact Option.noConfusion h
    | (rw [Option.some.injEq] at h; subst h; exact sleepBands_range _)

theorem waterComponent_range {r : Option Reading} {p : JsQ}
    (h : waterComponent r = some p) : 0 ≤ p.toRat ∧ p.toRat ≤ 25 := by
  unfold waterComponent at h
  repeat' split at h
  all_goals first
    | exact Option.noConfusion h
    | (rw [Option.some.injEq] at h; subst h; exact waterBands_range _)

theorem bloodPressureComponent_range {r : Option Reading} {p : JsQ}
    (h : bloodPressureComponent r = some p) : 0 ≤ p.toRat ∧ p.toRat ≤ 25 := by
  unfold bloodPressureComponent bpFinish at h
  repeat' split at h
  all_goals first
    | exact Option.noConfusion h
    | (rw [Option.some.injEq] at h; subst h; exact bpBands_range _)

theorem oxygenLevelComponent_range {r : Option Reading} {p : JsQ}
    (h : oxygenLevelComponent r = some p) : 0 ≤ p.toRat ∧ p.toRat ≤ 25 := by
  unfold oxygenLevelComponent at h
  repeat' split at h
  all_goals first
    | exact Option.noConfusion h
    | (rw [Option.some.injEq] at h; subst h; exact oxygenBands_range _)

theorem temp_ite_range (c1 c2 : Prop) [Decidable c1] [Decidable c2] (x : JsNum) :
    0 ≤ (if c1 then tempBandsC x else if c2 then tempBandsF x else 0).toRat ∧
      (if c1 then tempBandsC x else if c2 then tempBandsF x else 0).toRat ≤ 25 := by
  split_ifs
  · exact tempBandsC_range x
  · exact tempBandsF_range x
  · rw [JsQ.toRat_ofNat]
    norm_num

theorem temperatureComponent_range {r : Option Reading} {p : JsQ}
    (h : temperatureComponent r = some p) : 0 ≤ p.toRat ∧ p.toRat ≤ 25 := by
  rcases r with _ | rr
  · exact Option.noConfusion h
  rcases hv : rr.value with x | s | _
  case str =>
    simp only [temperatureComponent, hv] at h
    exact Option.noConfusion h
  case vNull =>
    simp only [temperatureComponent, hv] at h
    exact Option.noConfusion h
  case num =>
    rcases x with _ | _ | _ | q <;> simp only [temperatureComponent, hv] at h
    all_goals try exact Option.noConfusion h
    all_goals
      rw [Option.some.injEq] at h
      subst h
      exact temp_ite_range _ _ _

theorem weightComponent_range {r : Option Reading} {p : JsQ}
    (h : weightComponent r = some p) : 0 ≤ p.toRat ∧ p.toRat ≤ 25 := by
  unfold weightComponent at h
  repeat' split at h
  all_goals first
    | exact Option.noConfusion h
    | (rw [Option.some.injEq] at h; subst h; exact weightBands_range _)

theorem codeScoredA_range (v : Vitals) :
    ∀ p ∈ codeScoredA v, 0 ≤ p.toRat ∧ p.toRat ≤ 25 := by
  intro p hp
  rw [codeScoredA, List.mem_filterMap] at hp
  obtain ⟨o, ho, hop⟩ := hp
  rw [id_eq] at hop
  subst hop
  simp only [componentsA, List.mem_cons, List.not_mem_nil, or_false] at ho
  rcases ho with h | h | h | h | h | h | h
  · exact heartRateComponent_range h.symm
  · exact stepsComponent_range h.symm
  · exact sleepComponent_range h.symm
  · exact waterComponent_range h.symm
  · exact bloodPressureComponent_range h.symm
  · exact oxygenLevelComponent_range h.symm
  · exact temperatureComponent_range h.symm

theorem codeScoredB_range (v : Vitals) :
    ∀ p ∈ codeScoredB v, 0 ≤ p.toRat ∧ p.toRat ≤ 25 := by
  intro p hp
  rw [codeScoredB, List.mem_filterMap] at hp
  obtain ⟨o, ho, hop⟩ := hp
  rw [id_eq] at hop
  subst hop
  simp only [componentsB, List.mem_cons, List.not_mem_nil, or_false] at ho
  rcases ho with h | h | h | h | h | h | h
  · exact heartRateComponent_range h.symm
  · exact sleepComponent_range h.symm
  · exact waterComponent_range h.symm
  · exact bloodPressureComponent_range h.symm
  · exact oxygenLevelComponent_range h.symm
  · exact temperatureComponent_range h.symm
  · exact weightComponent_range h.symm

theorem scored_sum_range (l : List JsQ) (h : ∀ p ∈ l, 0 ≤ p.toRat ∧ p.toRat ≤ 25) :
    0 ≤ (l.map JsQ.toRat).sum ∧ (l.map JsQ.toRat).sum ≤ 25 * l.length := by
  induction l with
  | nil => simp
  | cons p rest ih =>
    obtain ⟨h1, h2⟩ := h p (List.mem_cons_self p rest)
    obtain ⟨h3, h4⟩ := ih fun q hq => h q (List.mem_cons_of_mem p hq)
    simp only [List.map_cons, List.sum_cons, List.length_cons]
    constructor
    · linarith
    · push_cast
      linarith

theorem floor_half_range {q : ℚ} (h0 : 0 ≤ q) (h1 : q ≤ 100) :
    0 ≤ ⌊q + 1 / 2⌋ ∧ ⌊q + 1 / 2⌋ ≤ 100 := by
  refine ⟨Int.floor_nonneg.mpr (by linarith), ?_⟩
  have hle : ⌊q + 1 / 2⌋ ≤ ⌊(100 : ℚ) + 1 / 2⌋ := Int.floor_le_floor (by linarith)
  have : ⌊(100 : ℚ) + 1 / 2⌋ = 100 := by
    rw [Int.floor_eq_iff]
    norm_num
  omega

theorem normalized_range (S : ℚ) (n : ℕ) (hn : n ≠ 0) (h0 : 0 ≤ S) (h25 : S ≤ 25 * n) :
    0 ≤ ⌊S / (n * 25) * 100 + 1 / 2⌋ ∧ ⌊S / (n * 25) * 100 + 1 / 2⌋ ≤ 100 := by
  have hnpos : (0 : ℚ) < (n : ℚ) * 25 := by
    have : (0 : ℚ) < (n : ℚ) := by exact_mod_cast Nat.pos_of_ne_zero hn
    linarith
  apply floor_half_range
  · positivity
  · rw [div_mul_eq_mul_div, div_le_iff₀ hnpos]
    nlinarith

theorem bool_eq_decide (b : Bool) (p : Prop) [Decidable p] (h : b = true ↔ p) :
    b = decide p := by
  rcases hb : b with _ | _
  · rw [hb] at h
    simp only [Bool.false_eq_true, false_iff] at h
    simp [h]
  · rw [hb] at h
    simp only [true_iff] at h
    simp [h]

theorem jsLt_fin_lit (q : JsQ) (n : ℕ) :
    jsLt (.fin q) (@OfNat.ofNat JsNum n (instOfNatJsNum n)) = decide (q.toRat < (n : ℚ)) := by
  apply bool_eq_decide
  show q.blt (JsQ.ofInt n) = true ↔ _
  rw [JsQ.blt_iff, JsQ.toRat_ofInt]
  exact_mod_cast Iff.rfl

theorem jsLe_fin_lit (q : JsQ) (n : ℕ) :
    jsLe (.fin q) (@OfNat.ofNat JsNum n (instOfNatJsNum n)) = decide (q.toRat ≤ (n : ℚ)) := by
  apply bool_eq_decide
  show q.ble (JsQ.ofInt n) = true ↔ _
  rw [JsQ.ble_iff, JsQ.toRat_ofInt]
  exact_mod_cast Iff.rfl

theorem jsGt_fin_lit (q : JsQ) (n : ℕ) :
    jsGt (.fin q) (@OfNat.ofNat JsNum n (instOfNatJsNum n)) = decide ((n : ℚ) < q.toRat) := by
  apply bool_eq_decide
  show (JsQ.ofInt n).blt q = true ↔ _
  rw [JsQ.blt_iff, JsQ.toRat_ofInt]
  exact_mod_cast Iff.rfl

theorem jsGe_fin_lit (q : JsQ) (n : ℕ) :
    jsGe (.fin q) (@OfNat.ofNat JsNum n (instOfNatJsNum n)) = decide ((n : ℚ) ≤ q.toRat) := by
  apply bool_eq_decide
  show (JsQ.ofInt n).ble q = true ↔ _
  rw [JsQ.ble_iff, JsQ.toRat_ofInt]
  exact_mod_cast Iff.rfl

/-- C9: For every numeric weight value v, the track-screen status computation
returns "Low" when v < 45, "High" when v > 100, and "Normal" otherwise
(the infinities compare accordingly; a NaN value is caught earlier as
"Unknown").  The home-screen variant has no weight case. -/
theorem C9_weight_status (v : Vitals) (q : JsQ) :
    calculateVitalStatusW v .weight (.num (.fin q)) =
        (if q.toRat < 45 then "Low" else if 100 < q.toRat then "High" else "Normal") ∧
      calculateVitalStatusW v .weight (.num .posInf) = "High" ∧
      calculateVitalStatusW v .weight (.num .negInf) = "Low" := by
  refine ⟨?_, rfl, rfl⟩
  simp only [calculateVitalStatusW, JsNum.isNaN, Bool.false_eq_true, if_false]
  rw [jsLt_fin_lit, jsGt_fin_lit]
  norm_num

/-- C7: a finite oxygenLevel value above 100 gets status "Normal" (only
values below 95 are "Low"), while the score computation still counts the
metric and awards it 0 of 25 points. -/
theorem C7_oxygen_over_100 (v : Vitals) (q : JsQ) (u : Option String) (g : Option JsNum)
    (hq : (100 : ℚ) < q.toRat) :
    calculateVitalStatus v .oxygenLevel (.num (.fin q)) = "Normal" ∧
      oxygenLevelComponent (some { value := .num (.fin q), unit := u, goal := g }) =
        some (0 : JsQ) := by
  constructor
  · simp only [calculateVitalStatus, JsNum.isNaN, Bool.false_eq_true, if_false]
    rw [jsLt_fin_lit, if_neg]
    simp only [decide_eq_true_eq, not_lt]
    push_cast
    linarith
  · show some (oxygenBands (.fin q)) = some (0 : JsQ)
    have hb : oxygenBands (.fin q) = (0 : JsQ) := by
      unfold oxygenBands
      rw [jsGe_fin_lit, jsGe_fin_lit, jsGe_fin_lit, jsLe_fin_lit, jsLt_fin_lit, jsLt_fin_lit,
        jsLt_fin_lit, jsGt_fin_lit]
      simp only [Bool.and_eq_true, decide_eq_true_eq]
      split_ifs <;> first | rfl | (exfalso; push_cast at *; linarith)
    rw [hb]

/-- C7 witness at oxygenLevel = 101. -/
theorem C7_oxygen_over_100_witness :
    (100 : ℚ) < (JsQ.ofInt 101).toRat ∧
      (calculateVitalStatus emptyVitals .oxygenLevel (.num (.fin (JsQ.ofInt 101))) = "Normal" ∧
        oxygenLevelComponent
            (some { value := .num (.fin (JsQ.ofInt 101)), unit := none, goal := none }) =
          some (0 : JsQ)) :=
  ⟨by rw [JsQ.toRat_ofInt]; norm_num,
    C7_oxygen_over_100 emptyVitals (JsQ.ofInt 101) none none
      (by rw [JsQ.toRat_ofInt]; norm_num)⟩

/-- C1 (amended): both full evaluators return
`round(totalScore / (countScored * 25) * 100)` where `countScored`/`totalScore`
range over the metrics the code actually scores (present, parseable, and
passing the per-metric inclusion guards such as sleep hours > 0 and systolic
> 0), and return exactly 0 when nothing is scored, in particular on the
empty reading set. -/
theorem C1_amended_score_formula :
    (∀ v : Vitals,
        calculateHealthProgress v =
          if (codeScoredA v).length = 0 then 0
          else
            ⌊((codeScoredA v).map JsQ.toRat).sum / ((codeScoredA v).length * 25) * 100
              + 1 / 2⌋) ∧
      (∀ v : Vitals,
        calculateHealthProgressB v =
          if (codeScoredB v).length = 0 then 0
          else
            ⌊((codeScoredB v).map JsQ.toRat).sum / ((codeScoredB v).length * 25) * 100
              + 1 / 2⌋) ∧
      calculateHealthProgress emptyVitals = 0 ∧ calculateHealthProgressB emptyVitals = 0 := by
  refine ⟨fun v => ?_, fun v => ?_, by decide, by decide⟩
  · show normalizeScore ((componentsA v).foldl tally (0, 0)) = _
    rw [normalizeScore_formula]
    rfl
  · show normalizeScore ((componentsB v).foldl tally (0, 0)) = _
    rw [normalizeScore_formula]
    rfl

/-- C1 counterexample: with heartRate 70 and sleep "0h 30m" the code scores
only the heart rate (sleep is parseable to 0 hours but excluded by the
`hours > 0` guard) and returns 100, while the claimed formula counts both
metrics (sleep band score 0) and predicts 50. -/
theorem C1_counterexample :
    calculateHealthProgress
        { emptyVitals with
          heartRate := some { value := .num (.fin (JsQ.ofInt 70)) },
          sleep := some { value := .str "0h 30m" } } = 100 ∧
      claimScore
          { emptyVitals with
            heartRate := some { value := .num (.fin (JsQ.ofInt 70)) },
            sleep := some { value := .str "0h 30m" } } = 50 := by
  constructor
  · decide
  · have hl :
        (claimComponentsA
            { emptyVitals with
              heartRate := some { value := .num (.fin (JsQ.ofInt 70)) },
              sleep := some { value := .str "0h 30m" } }).filterMap id =
          [JsQ.ofInt 25, JsQ.ofInt 0] := by decide
    have hc :
        claimCountScored
            { emptyVitals with
              heartRate := some { value := .num (.fin (JsQ.ofInt 70)) },
              sleep := some { value := .str "0h 30m" } } = 2 := by
      rw [claimCountScored, hl]
      rfl
    have ht :
        claimTotalScore
            { emptyVitals with
              heartRate := some { value := .num (.fin (JsQ.ofInt 70)) },
              sleep := some { value := .str "0h 30m" } } = 25 := by
      rw [claimTotalScore, hl]
      simp [JsQ.toRat_ofInt]
    rw [claimScore, hc, ht]
    norm_num

/-- C2 counterexample: Infinity is a non-finite number but is not excluded:
heartRate = Infinity is classified "High" (not "Unknown") and is counted in
the score with 0 points; and the malformed blood-pressure string
"120/80/60" has status "Unknown" yet is still scored (20/25 for systolic
120), so an unparseable metric is not always excluded from countScored. -/
theorem C2_counterexample :
    calculateVitalStatus emptyVitals .heartRate (.num .posInf) = "High" ∧
      heartRateComponent (some { value := .num .posInf, unit := none, goal := none }) =
        some (0 : JsQ) ∧
      calculateVitalStatus emptyVitals .bloodPressure (.str "120/80/60") = "Unknown" ∧
      bloodPressureComponent
          (some { value := .str "120/80/60", unit := none, goal := none }) =
        some (JsQ.ofInt 20) := by
  refine ⟨rfl, rfl, ?_, ?_⟩ <;> decide

/-- C2 (amended): a metric value that is missing, null, or NaN yields status
"Unknown" in both status functions and is excluded from every scoring
component; a sleep string whose leading-hours parse is NaN yields "Unknown"
and is excluded; a blood-pressure string that does not split into exactly
two tokens yields status "Unknown".  (Exceptions to the original claim:
±Infinity values are treated as ordinary numbers, and a multi-token
blood-pressure string, though "Unknown" for status, is still scored from its
leading token — see the counterexample.) -/
theorem C2_amended_missing_nan_excluded :
    (∀ (v : Vitals) (t : VitalType) (x : VitalValue), badValue x →
        calculateVitalStatus v t x = "Unknown" ∧ calculateVitalStatusW v t x = "Unknown") ∧
      (∀ r : Reading, badValue r.value →
        heartRateComponent (some r) = none ∧ stepsComponent (some r) = none ∧
          sleepComponent (some r) = none ∧ waterComponent (some r) = none ∧
          bloodPressureComponent (some r) = none ∧ oxygenLevelComponent (some r) = none ∧
          temperatureComponent (some r) = none ∧ weightComponent (some r) = none) ∧
      (∀ (v : Vitals) (s : String) (u : Option String) (g : Option JsNum),
        jsParseFloat (beforeFirst 'h' s.data) = .nan →
        calculateVitalStatus v .sleep (.str s) = "Unknown" ∧
          sleepComponent (some { value := .str s, unit := u, goal := g }) = none) ∧
      (∀ (v : Vitals) (s : String), (splitChars '/' s.data).length ≠ 2 →
        calculateVitalStatus v .bloodPressure (.str s) = "Unknown") := by
  refine ⟨?_, ?_, ?_, ?_⟩
  · rintro v t x (rfl | rfl)
    · exact ⟨rfl, rfl⟩
    · exact ⟨rfl, rfl⟩
  · rintro ⟨val, u, g⟩ (rfl | rfl)
    · exact ⟨rfl, rfl, rfl, rfl, rfl, rfl, rfl, rfl⟩
    · exact ⟨rfl, rfl, rfl, rfl, rfl, rfl, rfl, rfl⟩
  · intro v s u g hp
    constructor
    · simp only [calculateVitalStatus]
      by_cases ht : jsTrimEmpty s.data
      · rw [if_pos ht]
      · rw [if_neg ht]
        simp only [hp, JsNum.isNaN, if_true]
    · simp only [sleepComponent]
      by_cases hc : s.data.contains 'h'
      · simp only [hc, if_true, hp, JsNum.isNaN, Bool.not_true, Bool.false_and,
          Bool.false_eq_true, if_false]
      · simp only [hc, Bool.false_eq_true, if_false]
        rfl
  · intro v s hsp
    simp only [calculateVitalStatus]
    by_cases ht : jsTrimEmpty s.data
    · rw [if_pos ht]
    · rw [if_neg ht]
      rcases h2 : splitChars '/' s.data with _ | ⟨p1, _ | ⟨p2, _ | ⟨p3, rest⟩⟩⟩
      · rfl
      · rfl
      · exact absurd (by rw [h2]; rfl) hsp
      · rfl

/-- C2 witness: the amended theorem applied at heartRate null, a NaN reading,
the unparseable sleep string "abc", and the malformed blood-pressure string
"120/80/60". -/
theorem C2_amended_missing_nan_excluded_witness :
    calculateVitalStatus emptyVitals .heartRate .vNull = "Unknown" ∧
      sleepComponent (some { value := .num .nan, unit := none, goal := none }) = none ∧
      calculateVitalStatus emptyVitals .sleep (.str "abc") = "Unknown" ∧
      calculateVitalStatus emptyVitals .bloodPressure (.str "120/80/60") = "Unknown" :=
  ⟨(C2_amended_missing_nan_excluded.1 emptyVitals .heartRate .vNull (Or.inl rfl)).1,
    (C2_amended_missing_nan_excluded.2.1 { value := .num .nan, unit := none, goal := none }
      (Or.inr rfl)).2.2.1,
    (C2_amended_missing_nan_excluded.2.2.1 emptyVitals "abc" none none (by decide)).1,
    C2_amended_missing_nan_excluded.2.2.2 emptyVitals "120/80/60" (by decide)⟩

/-- Every scoring block skips a reading whose value is null/undefined or NaN. -/
theorem badValue_component_none (r : Reading) (hb : badValue r.value) :
    heartRateComponent (some r) = none ∧ stepsComponent (some r) = none ∧
      sleepComponent (some r) = none ∧ waterComponent (some r) = none ∧
      bloodPressureComponent (some r) = none ∧ oxygenLevelComponent (some r) = none ∧
      temperatureComponent (some r) = none ∧ weightComponent (some r) = none := by
  obtain ⟨val, u, g⟩ := r
  rcases hb with rfl | rfl
  · exact ⟨rfl, rfl, rfl, rfl, rfl, rfl, rfl, rfl⟩
  · exact ⟨rfl, rfl, rfl, rfl, rfl, rfl, rfl, rfl⟩

/-- The status labels either status function can produce. -/
def statusLabels : List String :=
  ["Unknown", "Low", "High", "Normal", "Achieved", "Almost There", "On Track",
   "Getting Started", "Need More", "Hydrated", "Halfway", "Good", "Too Much", "Not Enough"]

/-- C3: the evaluator is total: on every input, including malformed composite
strings, wrong-typed values, and partially missing records, both status
functions return one of the fixed status labels (the Lean functions are total,
so no exception can propagate), and a reading with an absent-data value only
causes its own metric to be skipped: the wellness score equals the score of
the same reading set with that one slot removed. -/
theorem C3_evaluator_total_and_isolating :
    (∀ (v : Vitals) (t : VitalType) (x : VitalValue),
        calculateVitalStatus v t x ∈ statusLabels ∧
          calculateVitalStatusW v t x ∈ statusLabels) ∧
      (∀ (v : Vitals) (t : VitalType) (r : Reading), badValue r.value →
        calculateHealthProgress (setSlot v t (some r)) =
            calculateHealthProgress (setSlot v t none) ∧
          calculateHealthProgressB (setSlot v t (some r)) =
            calculateHealthProgressB (setSlot v t none)) := by
  constructor
  · intro v t x
    refine ⟨?_, ?_⟩
    · rcases x with x | s | _ <;> cases t <;> simp only [calculateVitalStatus]
      all_goals repeat' (first | split | dsimp only [])
      all_goals first
        | assumption
        | simp [statusLabels]
    · rcases x with x | s | _ <;> cases t <;> simp only [calculateVitalStatusW]
      all_goals repeat' (first | split | dsimp only [])
      all_goals first
        | assumption
        | simp [statusLabels]
  · intro v t r hb
    obtain ⟨h1, h2, h3, h4, h5, h6, h7, h8⟩ := badValue_component_none r hb
    cases t <;>
      refine ⟨?_, ?_⟩ <;>
        simp only [calculateHealthProgress, calculateHealthProgressB, setSlot,
          componentsA, componentsB, h1, h2, h3, h4, h5, h6, h7, h8] <;>
        rfl

/-- C3 witness: a null sleep reading is skipped without affecting the score,
and a malformed blood-pressure string still yields a defined label. -/
theorem C3_evaluator_total_and_isolating_witness :
    calculateVitalStatus emptyVitals .bloodPressure (.str "12//80xyz") ∈ statusLabels ∧
      calculateHealthProgress
          (setSlot emptyVitals .sleep (some { value := .vNull, unit := none, goal := none })) =
        calculateHealthProgress (setSlot emptyVitals .sleep none) :=
  ⟨(C3_evaluator_total_and_isolating.1 emptyVitals .bloodPressure (.str "12//80xyz")).1,
    (C3_evaluator_total_and_isolating.2 emptyVitals .sleep
      { value := .vNull, unit := none, goal := none } (Or.inl rfl)).1⟩

/-- C4 counterexample: the simplified home-screen evaluator (cited lines
2619-2653) does not cap the proportional steps contribution: steps 50000
against goal 10000 alone yields (50000/10000)*25 = 125, a score outside
[0, 100]. -/
theorem C4_counterexample :
    simpleCalculateHealthProgress
        { heartRate := { type := "number", value := .vNull },
          steps := { type := "number", value := .num (.fin (JsQ.ofInt 50000)),
                     goal := some (.fin (JsQ.ofInt 10000)) },
          sleep := { type := "string", value := .str "" },
          water := { type := "number", value := .vNull } } =
      .fin (JsQ.ofInt 125) ∧ ¬((JsQ.ofInt 125).toRat ≤ 100) := by
  constructor
  · decide
  · rw [JsQ.toRat_ofInt]
    norm_num

/-- C4 (amended): in the two full banded evaluators every scored component
lies in [0, 25] and the returned wellness score is an integer in [0, 100];
the simplified home-screen variant does not bound its proportional
steps/water terms and can return a value outside [0, 100]. -/
theorem C4_amended_bounds :
    (∀ (v : Vitals) (p : JsQ), p ∈ codeScoredA v → 0 ≤ p.toRat ∧ p.toRat ≤ 25) ∧
      (∀ (v : Vitals) (p : JsQ), p ∈ codeScoredB v → 0 ≤ p.toRat ∧ p.toRat ≤ 25) ∧
      (∀ v : Vitals, 0 ≤ calculateHealthProgress v ∧ calculateHealthProgress v ≤ 100) ∧
      (∀ v : Vitals, 0 ≤ calculateHealthProgressB v ∧ calculateHealthProgressB v ≤ 100) := by
  refine ⟨fun v p hp => codeScoredA_range v p hp, fun v p hp => codeScoredB_range v p hp,
    fun v => ?_, fun v => ?_⟩
  · have hf : calculateHealthProgress v =
        if (codeScoredA v).length = 0 then 0
        else
          ⌊((codeScoredA v).map JsQ.toRat).sum / ((codeScoredA v).length * 25) * 100
            + 1 / 2⌋ := by
      show normalizeScore _ = _
      rw [normalizeScore_formula]
      rfl
    rw [hf]
    by_cases h : (codeScoredA v).length = 0
    · rw [if_pos h]
      norm_num
    · rw [if_neg h]
      obtain ⟨h0, h25⟩ := scored_sum_range (codeScoredA v) (codeScoredA_range v)
      exact normalized_range _ _ h h0 h25
  · have hf : calculateHealthProgressB v =
        if (codeScoredB v).length = 0 then 0
        else
          ⌊((codeScoredB v).map JsQ.toRat).sum / ((codeScoredB v).length * 25) * 100
            + 1 / 2⌋ := by
      show normalizeScore _ = _
      rw [normalizeScore_formula]
      rfl
    rw [hf]
    by_cases h : (codeScoredB v).length = 0
    · rw [if_pos h]
      norm_num
    · rw [if_neg h]
      obtain ⟨h0, h25⟩ := scored_sum_range (codeScoredB v) (codeScoredB_range v)
      exact normalized_range _ _ h h0 h25

/-- C4 witness: a concrete scored component (heart rate 70, worth 25) lies in
[0, 25]. -/
theorem C4_amended_bounds_witness :
    JsQ.ofInt 25 ∈ codeScoredA { emptyVitals with
        heartRate := some { value := .num (.fin (JsQ.ofInt 70)) } } ∧
      0 ≤ (JsQ.ofInt 25).toRat ∧ (JsQ.ofInt 25).toRat ≤ 25 :=
  ⟨by decide,
    C4_amended_bounds.1
      { emptyVitals with heartRate := some { value := .num (.fin (JsQ.ofInt 70)) } }
      (JsQ.ofInt 25) (by decide)⟩

theorem takeWhile_append_sep (sep : Char) (l t : List Char)
    (h : ¬l.contains sep = true) :
    (l ++ sep :: t).takeWhile (fun c => c != sep) = l := by
  induction l with
  | nil => simp
  | cons a rest ih =>
    rw [List.contains_cons, Bool.or_eq_true, not_or] at h
    obtain ⟨ha, hrest⟩ := h
    replace ha : sep ≠ a := by simpa using ha
    simp only [List.cons_append, List.takeWhile_cons]
    rw [if_pos (by simpa using ha.symm), ih hrest]

/-- C5: sleep status parses the text before the first `h` as the hour count
and classifies on it alone: "7h 0m" is "Good", "6h 59m" is "Not Enough"
(minutes discarded), "10h 0m" is "Too Much", an empty or whitespace-only
string is "Unknown", and the text after the first `h` never affects the
status. -/
theorem C5_sleep_parsing :
    (∀ v : Vitals,
        calculateVitalStatus v .sleep (.str "7h 0m") = "Good" ∧
          calculateVitalStatus v .sleep (.str "6h 59m") = "Not Enough" ∧
          calculateVitalStatus v .sleep (.str "10h 0m") = "Too Much" ∧
          calculateVitalStatus v .sleep (.str "") = "Unknown" ∧
          calculateVitalStatus v .sleep (.str "   ") = "Unknown") ∧
      (∀ (v : Vitals) (p t1 t2 : String), ¬p.data.contains 'h' = true →
        calculateVitalStatus v .sleep (.str (p ++ "h" ++ t1)) =
          calculateVitalStatus v .sleep (.str (p ++ "h" ++ t2))) := by
  constructor
  · exact fun v => ⟨rfl, rfl, rfl, rfl, rfl⟩
  · intro v p t1 t2 hp
    have hdata : ∀ t : String, (p ++ "h" ++ t).data = p.data ++ 'h' :: t.data := by
      intro t
      rw [String.data_append, String.data_append, List.append_assoc]
      rfl
    have hws : isJsWhitespace 'h' = false := by decide
    have htrim : ∀ t : List Char, jsTrimEmpty (p.data ++ 'h' :: t) = false := by
      intro t
      simp [jsTrimEmpty, List.all_append, hws]
    have hbf : ∀ t : List Char, beforeFirst 'h' (p.data ++ 'h' :: t) = p.data :=
      fun t => takeWhile_append_sep 'h' p.data t hp
    simp only [calculateVitalStatus, hdata, htrim, Bool.false_eq_true, if_false, hbf]

/-- C5 witness: the minutes part after the first `h` is discarded. -/
theorem C5_sleep_parsing_witness :
    calculateVitalStatus emptyVitals .sleep (.str ("6" ++ "h" ++ " 59m")) =
      calculateVitalStatus emptyVitals .sleep (.str ("6" ++ "h" ++ " 0m")) :=
  C5_sleep_parsing.2 emptyVitals "6" " 59m" " 0m" (by decide)

theorem splitCharsAux_no_sep (sep : Char) (cs acc : List Char)
    (h : ¬cs.contains sep = true) :
    splitCharsAux sep cs acc = [acc.reverse ++ cs] := by
  induction cs generalizing acc with
  | nil => simp [splitCharsAux]
  | cons c rest ih =>
    rw [List.contains_cons, Bool.or_eq_true, not_or] at h
    obtain ⟨hc, hrest⟩ := h
    replace hc : sep ≠ c := by simpa using hc
    rw [splitCharsAux, if_neg (Ne.symm hc), ih _ hrest]
    simp

theorem splitChars_no_sep (sep : Char) (cs : List Char) (h : ¬cs.contains sep = true) :
    splitChars sep cs = [cs] := by
  rw [splitChars, splitCharsAux_no_sep sep cs [] h]
  rfl

theorem splitChars_two_contains (sep : Char) (cs p1 p2 : List Char)
    (h : splitChars sep cs = [p1, p2]) : cs.contains sep = true := by
  by_contra hc
  rw [splitChars_no_sep sep cs hc] at h
  exact List.noConfusion (List.cons.inj h).2

theorem contains_not_trimEmpty (cs : List Char) (sep : Char)
    (hmem : cs.contains sep = true) (hws : isJsWhitespace sep = false) :
    jsTrimEmpty cs = false := by
  rw [jsTrimEmpty]
  by_contra hall
  rw [Bool.not_eq_false, List.all_eq_true] at hall
  have hmem2 : sep ∈ cs := List.elem_iff.mp hmem
  exact absurd (hall sep hmem2) (by rw [hws]; exact Bool.false_ne_true)

/-- C6: for blood-pressure string values "systolic/diastolic": a wrong token
count or a parseInt-NaN part yields "Unknown"; otherwise systolic ≥ 140 or
diastolic ≥ 90 yields "High", else systolic ≤ 90 or diastolic ≤ 60 yields
"Low", else "Normal"; in particular "135/95" is "High", "85/55" is "Low",
and "118/76" is "Normal". -/
theorem C6_blood_pressure_status :
    (∀ v : Vitals,
        calculateVitalStatus v .bloodPressure (.str "135/95") = "High" ∧
          calculateVitalStatus v .bloodPressure (.str "85/55") = "Low" ∧
          calculateVitalStatus v .bloodPressure (.str "118/76") = "Normal") ∧
      (∀ (v : Vitals) (s : String), (splitChars '/' s.data).length ≠ 2 →
        calculateVitalStatus v .bloodPressure (.str s) = "Unknown") ∧
      (∀ (v : Vitals) (s : String) (p1 p2 : List Char),
        splitChars '/' s.data = [p1, p2] →
        (jsParseInt p1 = .nan ∨ jsParseInt p2 = .nan →
          calculateVitalStatus v .bloodPressure (.str s) = "Unknown") ∧
          (∀ a b : JsQ, jsParseInt p1 = .fin a → jsParseInt p2 = .fin b →
            calculateVitalStatus v .bloodPressure (.str s) =
              if 140 ≤ a.toRat ∨ 90 ≤ b.toRat then "High"
              else if a.toRat ≤ 90 ∨ b.toRat ≤ 60 then "Low"
              else "Normal")) := by
  refine ⟨fun v => ⟨rfl, rfl, rfl⟩, ?_, ?_⟩
  · intro v s hsp
    simp only [calculateVitalStatus]
    by_cases ht : jsTrimEmpty s.data
    · rw [if_pos ht]
    · rw [if_neg ht]
      rcases h2 : splitChars '/' s.data with _ | ⟨p1, _ | ⟨p2, _ | ⟨p3, rest⟩⟩⟩
      · rfl
      · rfl
      · exact absurd (by rw [h2]; rfl) hsp
      · rfl
  · intro v s p1 p2 hsp
    have htrim : jsTrimEmpty s.data = false :=
      contains_not_trimEmpty s.data '/'
        (splitChars_two_contains '/' s.data p1 p2 hsp) (by decide)
    constructor
    · rintro (hn | hn) <;>
        simp only [calculateVitalStatus, htrim, Bool.false_eq_true, if_false, hsp, hn,
          JsNum.isNaN, Bool.true_or, Bool.or_true, if_true]
    · intro a b ha hb
      simp only [calculateVitalStatus, htrim, Bool.false_eq_true, if_false, hsp, ha, hb,
        JsNum.isNaN, Bool.or_self]
      rw [jsGe_fin_lit, jsGe_fin_lit, jsLe_fin_lit, jsLe_fin_lit]
      simp only [Bool.false_eq_true, if_false, ← Bool.decide_or, decide_eq_true_eq]
      norm_num

/-- C6 witness: the general rule applied to the concrete reading "118/76". -/
theorem C6_blood_pressure_status_witness :
    calculateVitalStatus emptyVitals .bloodPressure (.str "118/76") =
      if 140 ≤ (JsQ.ofInt 118).toRat ∨ 90 ≤ (JsQ.ofInt 76).toRat then "High"
      else if (JsQ.ofInt 118).toRat ≤ 90 ∨ (JsQ.ofInt 76).toRat ≤ 60 then "Low"
      else "Normal" :=
  ((C6_blood_pressure_status.2.2 emptyVitals "118/76" ['1', '1', '8'] ['7', '6']
        (by decide)).2
    (JsQ.ofInt 118) (JsQ.ofInt 76) (by decide) (by decide))

/-- C8 counterexample: two reading sets identical except for the temperature
unit string get different wellness scores: 36.5 with unit "°C" scores
100, with unit "°F" scores 0.  The unit field does influence the score. -/
theorem C8_counterexample :
    calculateHealthProgress
        { emptyVitals with
          temperature := some { value := .num (.fin 36.5), unit := some "°C" } } = 100 ∧
      calculateHealthProgress
          { emptyVitals with
            temperature := some { value := .num (.fin 36.5), unit := some "°F" } } = 0 ∧
      (100 : ℤ) ≠ 0 := by
  refine ⟨by decide, by decide, by decide⟩

/-- C8 (amended): the unit field never influences a per-metric status (the
status functions do not even receive it), and never influences the score
through any component except temperature, whose unit selects the °C/°F band
table; changing the units of all non-temperature readings leaves both
wellness scores unchanged. -/
theorem C8_amended_unit_noninterference :
    (∀ (val : VitalValue) (g : Option JsNum) (u u2 : Option String),
        heartRateComponent (some ⟨val, u, g⟩) = heartRateComponent (some ⟨val, u2, g⟩) ∧
          stepsComponent (some ⟨val, u, g⟩) = stepsComponent (some ⟨val, u2, g⟩) ∧
          sleepComponent (some ⟨val, u, g⟩) = sleepComponent (some ⟨val, u2, g⟩) ∧
          waterComponent (some ⟨val, u, g⟩) = waterComponent (some ⟨val, u2, g⟩) ∧
          bloodPressureComponent (some ⟨val, u, g⟩) =
            bloodPressureComponent (some ⟨val, u2, g⟩) ∧
          oxygenLevelComponent (some ⟨val, u, g⟩) = oxygenLevelComponent (some ⟨val, u2, g⟩) ∧
          weightComponent (some ⟨val, u, g⟩) = weightComponent (some ⟨val, u2, g⟩)) ∧
      (∀ (v : Vitals) (u1 u2 u3 u4 u5 u6 : Option String),
        calculateHealthProgress
            { v with
              heartRate := setUnitR v.heartRate u1, steps := setUnitR v.steps u2,
              sleep := setUnitR v.sleep u3, water := setUnitR v.water u4,
              bloodPressure := setUnitR v.bloodPressure u5,
              oxygenLevel := setUnitR v.oxygenLevel u6 } =
          calculateHealthProgress v) ∧
      (∀ (v : Vitals) (u1 u3 u4 u5 u6 u8 : Option String),
        calculateHealthProgressB
            { v with
              heartRate := setUnitR v.heartRate u1, sleep := setUnitR v.sleep u3,
              water := setUnitR v.water u4, bloodPressure := setUnitR v.bloodPressure u5,
              oxygenLevel := setUnitR v.oxygenLevel u6,
              weight := setUnitR v.weight u8 } =
          calculateHealthProgressB v) := by
  have hcomp : ∀ (val : VitalValue) (g : Option JsNum) (u u2 : Option String),
      heartRateComponent (some ⟨val, u, g⟩) = heartRateComponent (some ⟨val, u2, g⟩) ∧
        stepsComponent (some ⟨val, u, g⟩) = stepsComponent (some ⟨val, u2, g⟩) ∧
        sleepComponent (some ⟨val, u, g⟩) = sleepComponent (some ⟨val, u2, g⟩) ∧
        waterComponent (some ⟨val, u, g⟩) = waterComponent (some ⟨val, u2, g⟩) ∧
        bloodPressureComponent (some ⟨val, u, g⟩) =
          bloodPressureComponent (some ⟨val, u2, g⟩) ∧
        oxygenLevelComponent (some ⟨val, u, g⟩) = oxygenLevelComponent (some ⟨val, u2, g⟩) ∧
        weightComponent (some ⟨val, u, g⟩) = weightComponent (some ⟨val, u2, g⟩) := by
    intro val g u u2
    rcases val with x | s | _
    · rcases x with _ | _ | _ | q <;> exact ⟨rfl, rfl, rfl, rfl, rfl, rfl, rfl⟩
    · exact ⟨rfl, rfl, rfl, rfl, rfl, rfl, rfl⟩
    · exact ⟨rfl, rfl, rfl, rfl, rfl, rfl, rfl⟩
  have hslot : ∀ (f : Option Reading → Option JsQ),
      (∀ (val : VitalValue) (g : Option JsNum) (u u2 : Option String),
        f (some ⟨val, u, g⟩) = f (some ⟨val, u2, g⟩)) →
      ∀ (r : Option Reading) (u : Option String), f (setUnitR r u) = f r := by
    rintro f hf (_ | ⟨val, u0, g⟩) u
    · rfl
    · exact hf val g u u0
  refine ⟨hcomp, fun v u1 u2 u3 u4 u5 u6 => ?_, fun v u1 u3 u4 u5 u6 u8 => ?_⟩
  · have hc : componentsA
        { v with
          heartRate := setUnitR v.heartRate u1, steps := setUnitR v.steps u2,
          sleep := setUnitR v.sleep u3, water := setUnitR v.water u4,
          bloodPressure := setUnitR v.bloodPressure u5,
          oxygenLevel := setUnitR v.oxygenLevel u6 } = componentsA v := by
      simp only [componentsA]
      rw [hslot _ (fun val g u u2 => (hcomp val g u u2).1) v.heartRate u1,
        hslot _ (fun val g u u2 => (hcomp val g u u2).2.1) v.steps u2,
        hslot _ (fun val g u u2 => (hcomp val g u u2).2.2.1) v.sleep u3,
        hslot _ (fun val g u u2 => (hcomp val g u u2).2.2.2.1) v.water u4,
        hslot _ (fun val g u u2 => (hcomp val g u u2).2.2.2.2.1) v.bloodPressure u5,
        hslot _ (fun val g u u2 => (hcomp val g u u2).2.2.2.2.2.1) v.oxygenLevel u6]
    rw [calculateHealthProgress, calculateHealthProgress, hc]
  · have hc : componentsB
        { v with
          heartRate := setUnitR v.heartRate u1, sleep := setUnitR v.sleep u3,
          water := setUnitR v.water u4, bloodPressure := setUnitR v.bloodPressure u5,
          oxygenLevel := setUnitR v.oxygenLevel u6,
          weight := setUnitR v.weight u8 } = componentsB v := by
      simp only [componentsB]
      rw [hslot _ (fun val g u u2 => (hcomp val g u u2).1) v.heartRate u1,
        hslot _ (fun val g u u2 => (hcomp val g u u2).2.2.1) v.sleep u3,
        hslot _ (fun val g u u2 => (hcomp val g u u2).2.2.2.1) v.water u4,
        hslot _ (fun val g u u2 => (hcomp val g u u2).2.2.2.2.1) v.bloodPressure u5,
        hslot _ (fun val g u u2 => (hcomp val g u u2).2.2.2.2.2.1) v.oxygenLevel u6,
        hslot _ (fun val g u u2 => (hcomp val g u u2).2.2.2.2.2.2) v.weight u8]
    rw [calculateHealthProgressB, calculateHealthProgressB, hc]

theorem all_takeWhile (p q : Char → Bool) (cs : List Char)
    (h : cs.all q = true) : (cs.takeWhile p).all q = true := by
  induction cs with
  | nil => rfl
  | cons c rest ih =>
    rw [List.all_cons, Bool.and_eq_true] at h
    rw [List.takeWhile_cons]
    split
    · rw [List.all_cons, Bool.and_eq_true]
      exact ⟨h.1, ih h.2⟩
    · rfl

theorem jsParseFloat_whitespace (cs : List Char) (h : cs.all isJsWhitespace = true) :
    jsParseFloat cs = .nan := by
  rw [jsParseFloat, List.dropWhile_eq_nil_iff.mpr]
  · rfl
  · intro x hx
    exact (List.all_eq_true.mp h) x hx

/-- C10: a sleep string whose parsed hour count is 0 (such as the default
"0h 0m") gets status "Not Enough" (not "Unknown") from both status
functions, yet the score computation excludes it entirely: the sleep block
requires parsed hours > 0, so the reading neither adds points nor enters the
countScored denominator. -/
theorem C10_zero_sleep_not_enough_excluded (v : Vitals) (s : String) (u : Option String)
    (g : Option JsNum) (h : JsQ) (hpar : jsParseFloat (beforeFirst 'h' s.data) = .fin h)
    (h0 : h.toRat = 0) :
    calculateVitalStatus v .sleep (.str s) = "Not Enough" ∧
      calculateVitalStatusW v .sleep (.str s) = "Not Enough" ∧
      sleepComponent (some { value := .str s, unit := u, goal := g }) = none := by
  have htrim : jsTrimEmpty s.data = false := by
    by_contra hT
    rw [Bool.not_eq_false] at hT
    have hbf : (beforeFirst 'h' s.data).all isJsWhitespace = true :=
      all_takeWhile _ _ _ hT
    rw [jsParseFloat_whitespace _ hbf] at hpar
    exact JsNum.noConfusion hpar
  refine ⟨?_, ?_, ?_⟩
  · simp only [calculateVitalStatus, htrim, Bool.false_eq_true, if_false, hpar,
      JsNum.isNaN]
    rw [jsGe_fin_lit, jsGt_fin_lit]
    simp only [h0, Bool.false_eq_true, if_false]
    norm_num
  · simp only [calculateVitalStatusW, htrim, Bool.false_eq_true, if_false, hpar,
      JsNum.isNaN]
    rw [jsGe_fin_lit, jsGt_fin_lit]
    simp only [h0, Bool.false_eq_true, if_false]
    norm_num
  · simp only [sleepComponent]
    by_cases hc : s.data.contains 'h'
    · simp only [hc, if_true, hpar, JsNum.isNaN]
      rw [jsGt_fin_lit]
      simp only [h0, Bool.not_false, Bool.true_and]
      norm_num
    · simp only [hc, Bool.false_eq_true, if_false]
      rfl

/-- C10 witness at the default reading "0h 0m". -/
theorem C10_zero_sleep_witness :
    calculateVitalStatus emptyVitals .sleep (.str "0h 0m") = "Not Enough" ∧
      sleepComponent (some { value := .str "0h 0m", unit := none, goal := none }) = none :=
  ⟨(C10_zero_sleep_not_enough_excluded emptyVitals "0h 0m" none none (JsQ.ofInt 0)
      (by decide) (by rw [JsQ.toRat_ofInt]; norm_num)).1,
    (C10_zero_sleep_not_enough_excluded emptyVitals "0h 0m" none none (JsQ.ofInt 0)
      (by decide) (by rw [JsQ.toRat_ofInt]; norm_num)).2.2⟩
